import Mathlib

/-!
Verification of the FocusFlow detection backend (`backend/main.py`).

The core logic — geometric proximity classifiers, the per-frame orchestration
loop of the `/detect` endpoint, and the `DetectionSmoothing` majority-vote
window — is embedded shallowly below.  Pixel coordinates and visibility
scores are modelled as exact rationals (`ℚ`).  The source computes Euclidean
distances with `np.sqrt` and only ever compares them against nonnegative
constant thresholds; since `Real.sqrt` is monotone and `sqrt s < t ↔ s < t^2`
for `0 ≤ s`, `0 ≤ t`, every such comparison is embedded exactly as a
comparison of the squared distance with the squared threshold.
-/

namespace FocusFlow

/-- A detected phone bounding box (`BoundingBox` / the dicts produced by
`detect_objects`): origin, extent and confidence, in image pixels. -/
structure PhoneBox where
  x_min : ℚ
  y_min : ℚ
  width : ℚ
  height : ℚ
  confidence : ℚ
deriving DecidableEq, Repr

/-- A pose landmark (`Keypoint`): pixel position, relative depth, visibility
confidence and anatomical name. -/
structure Keypoint where
  x : ℚ
  y : ℚ
  z : ℚ
  visibility : ℚ
  name : String
deriving DecidableEq, Repr

instance : Inhabited Keypoint := ⟨⟨0, 0, 0, 0, ""⟩⟩

/-- Source function `get_phone_center` (main.py lines 248-252): center of a bounding box. -/
def get_phone_center (phone_box : PhoneBox) : ℚ × ℚ :=
  (phone_box.x_min + phone_box.width / 2, phone_box.y_min + phone_box.height / 2)

/-- Squared Euclidean distance.  `distance` in the source (line 254-256)
returns `sqrt` of this value; all uses compare it with a nonnegative
threshold `t`, which is equivalent to comparing this square with `t^2`. -/
def distanceSq (p1 p2 : ℚ × ℚ) : ℚ :=
  (p1.1 - p2.1) ^ 2 + (p1.2 - p2.2) ^ 2

/-- EAR_THRESHOLD = 140 px (lines 288, 333). -/
def EAR_THRESHOLD : ℚ := 140

/-- CLOSE_THRESHOLD = 100 px (lines 289, 334). -/
def CLOSE_THRESHOLD : ℚ := 100

/-- FACE_MARGIN = 120 px (line 376). -/
def FACE_MARGIN : ℚ := 120

/-- NOSE_THRESHOLD = 200 px (line 412). -/
def NOSE_THRESHOLD : ℚ := 200

/-- Source function `is_phone_near_left_ear` (lines 258-301).  Indices: left ear 7,
left wrist 15, left shoulder 11.  The guard `not keypoints or
len(keypoints) < 16` is modelled verbatim; the debug `print` calls carry no
semantics.  Distance comparisons are on squared values (see header). -/
def is_phone_near_left_ear (phone_box : PhoneBox) (keypoints : List Keypoint) : Bool :=
  if keypoints = [] ∨ keypoints.length < 16 then false
  else
    let left_ear := keypoints.getD 7 default
    let left_wrist := keypoints.getD 15 default
    let left_shoulder := keypoints.getD 11 default
    if left_ear.visibility < 3/10 then false
    else
      let phone_center := get_phone_center phone_box
      let ear_pos := (left_ear.x, left_ear.y)
      let dist_sq := distanceSq phone_center ear_pos
      if dist_sq < CLOSE_THRESHOLD ^ 2 then true
      else
        let wrist_raised :=
          decide (left_wrist.visibility > 3/10) && decide (left_wrist.y < left_shoulder.y)
        decide (dist_sq < EAR_THRESHOLD ^ 2) && wrist_raised

/-- Source function `is_phone_near_right_ear` (lines 303-346).  Indices: right ear 8,
right wrist 16, right shoulder 12; length guard `< 17`. -/
def is_phone_near_right_ear (phone_box : PhoneBox) (keypoints : List Keypoint) : Bool :=
  if keypoints = [] ∨ keypoints.length < 17 then false
  else
    let right_ear := keypoints.getD 8 default
    let right_wrist := keypoints.getD 16 default
    let right_shoulder := keypoints.getD 12 default
    if right_ear.visibility < 3/10 then false
    else
      let phone_center := get_phone_center phone_box
      let ear_pos := (right_ear.x, right_ear.y)
      let dist_sq := distanceSq phone_center ear_pos
      if dist_sq < CLOSE_THRESHOLD ^ 2 then true
      else
        let wrist_raised :=
          decide (right_wrist.visibility > 3/10) && decide (right_wrist.y < right_shoulder.y)
        decide (dist_sq < EAR_THRESHOLD ^ 2) && wrist_raised

/-- Minimum of a list of rationals, Python's `min` on a nonempty list
(only ever applied to nonempty lists in the source). -/
def listMin (l : List ℚ) : ℚ := l.foldl min (l.headD 0)

/-- Maximum of a list of rationals, Python's `max` on a nonempty list. -/
def listMax (l : List ℚ) : ℚ := l.foldl max (l.headD 0)

/-- The facial keypoints `[nose, left_eye, right_eye, left_ear, right_ear]`
(indices 0, 2, 5, 7, 8; lines 361-365, 377) filtered to those with
`visibility > 0.2` (line 378). -/
def visibleFacePoints (keypoints : List Keypoint) : List Keypoint :=
  ([keypoints.getD 0 default, keypoints.getD 2 default, keypoints.getD 5 default,
    keypoints.getD 7 default, keypoints.getD 8 default]).filter
    (fun p => decide (p.visibility > 1/5))

/-- Source function `is_phone_in_front_of_face` (lines 348-414): nose-visibility gate, face
bounding region from the visible facial points expanded by `FACE_MARGIN`
with inclusive bounds, strict nose-distance test and an either-wrist
visibility test. -/
def is_phone_in_front_of_face (phone_box : PhoneBox) (keypoints : List Keypoint) : Bool :=
  if keypoints = [] ∨ keypoints.length < 17 then false
  else
    let nose := keypoints.getD 0 default
    let left_wrist := keypoints.getD 15 default
    let right_wrist := keypoints.getD 16 default
    if nose.visibility < 3/10 then false
    else
      let visible_face_points := visibleFacePoints keypoints
      if visible_face_points = [] then false
      else
        let face_x_coords := visible_face_points.map (·.x)
        let face_y_coords := visible_face_points.map (·.y)
        let phone_center := get_phone_center phone_box
        let phone_in_face_area :=
          decide (listMin face_x_coords - FACE_MARGIN ≤ phone_center.1) &&
          decide (phone_center.1 ≤ listMax face_x_coords + FACE_MARGIN) &&
          decide (listMin face_y_coords - FACE_MARGIN ≤ phone_center.2) &&
          decide (phone_center.2 ≤ listMax face_y_coords + FACE_MARGIN)
        let nose_pos := (nose.x, nose.y)
        let dist_sq_nose := distanceSq phone_center nose_pos
        let wrist_visible :=
          decide (left_wrist.visibility > 3/10) || decide (right_wrist.visibility > 3/10)
        phone_in_face_area && decide (dist_sq_nose < NOSE_THRESHOLD ^ 2) && wrist_visible

/-!  Smoothing window (`DetectionSmoothing`, lines 66-109). -/

/-- One raw per-frame tuple pushed by `add_detection` (lines 77-83).  The
`timestamp` field of the source dict records ambient wall-clock time and is
never read by `get_smoothed_result`; it is omitted from the embedding. -/
structure DetectionTuple where
  phone : Bool
  left_ear : Bool
  right_ear : Bool
  front_face : Bool
deriving DecidableEq, Repr

/-- State of `DetectionSmoothing`: `window_size`, the deque (oldest first,
`maxlen = window_size`), and the declared-but-inert debounce fields
(lines 69-73). -/
structure DetectionSmoothing where
  window_size : Nat
  phone_detections : List DetectionTuple
  last_detection_time : ℚ
  debounce_ms : ℚ
deriving DecidableEq, Repr

/-- The instance `DetectionSmoothing(window_size=5)` as constructed at line 112. -/
def DetectionSmoothing.mkDefault : DetectionSmoothing :=
  { window_size := 5, phone_detections := [], last_detection_time := 0, debounce_ms := 300 }

/-- Source method `add_detection` (lines 75-83): append the new tuple; the deque's
`maxlen` silently evicts from the head when the length would exceed
`window_size`. -/
def add_detection (s : DetectionSmoothing)
    (phone_detected near_left near_right in_front : Bool) : DetectionSmoothing :=
  let q := s.phone_detections ++
    [{ phone := phone_detected, left_ear := near_left,
       right_ear := near_right, front_face := in_front }]
  { s with phone_detections :=
      if s.window_size < q.length then q.drop (q.length - s.window_size) else q }

/-- The four smoothed booleans returned by `get_smoothed_result`. -/
structure SmoothedResult where
  phone_detected : Bool
  phone_near_left_ear : Bool
  phone_near_right_ear : Bool
  phone_in_front_of_face : Bool
deriving DecidableEq, Repr

/-- Source method `get_smoothed_result` (lines 85-109): all-false on an empty window,
otherwise per-channel vote counts compared strictly against
`window_size / 2` (real division of the fixed capacity, not of the current
length). -/
def get_smoothed_result (s : DetectionSmoothing) : SmoothedResult :=
  if s.phone_detections = [] then
    { phone_detected := false, phone_near_left_ear := false,
      phone_near_right_ear := false, phone_in_front_of_face := false }
  else
    let phone_votes := (s.phone_detections.filter (·.phone)).length
    let left_votes := (s.phone_detections.filter (·.left_ear)).length
    let right_votes := (s.phone_detections.filter (·.right_ear)).length
    let front_votes := (s.phone_detections.filter (·.front_face)).length
    let threshold : ℚ := (s.window_size : ℚ) / 2
    { phone_detected := decide ((phone_votes : ℚ) > threshold)
      phone_near_left_ear := decide ((left_votes : ℚ) > threshold)
      phone_near_right_ear := decide ((right_votes : ℚ) > threshold)
      phone_in_front_of_face := decide ((front_votes : ℚ) > threshold) }

/-!  Per-frame orchestration inside the `/detect` endpoint (lines 488-517). -/

/-- The three per-frame proximity flags accumulated by the loop at
lines 498-509. -/
structure FrameFlags where
  left : Bool
  right : Bool
  front : Bool
deriving DecidableEq, Repr

/-- One iteration of the loop at lines 498-509: check left ear first; `elif`
right ear; `elif` front of face; otherwise leave the flags unchanged. -/
def classifyStep (keypoints : List Keypoint) (fl : FrameFlags) (phone_box : PhoneBox) :
    FrameFlags :=
  if is_phone_near_left_ear phone_box keypoints then { fl with left := true }
  else if is_phone_near_right_ear phone_box keypoints then { fl with right := true }
  else if is_phone_in_front_of_face phone_box keypoints then { fl with front := true }
  else fl

/-- The whole loop at lines 498-509: fold `classifyStep` over the phone
boxes in detection order, starting from all-false flags. -/
def classifyBoxes (phone_boxes : List PhoneBox) (keypoints : List Keypoint) : FrameFlags :=
  phone_boxes.foldl (classifyStep keypoints) ⟨false, false, false⟩

/-- What a single phone box contributes to the frame flags: the fixed
priority (left ear, then right ear, then front of face) with early exit
per box, as an explicit one-hot-or-zero record. -/
def boxContribution (phone_box : PhoneBox) (keypoints : List Keypoint) : FrameFlags :=
  if is_phone_near_left_ear phone_box keypoints then ⟨true, false, false⟩
  else if is_phone_near_right_ear phone_box keypoints then ⟨false, true, false⟩
  else if is_phone_in_front_of_face phone_box keypoints then ⟨false, false, true⟩
  else ⟨false, false, false⟩

/-- Number of proximity flags set in a `FrameFlags` record. -/
def flagCount (fl : FrameFlags) : Nat :=
  (if fl.left then 1 else 0) + (if fl.right then 1 else 0) + (if fl.front then 1 else 0)

/-- Lines 489-517 as a pure function of the frame's detections: the flags are
computed only when `phone_detected and pose_detected` (line 494), and the
tuple pushed into the smoothing window (lines 512-517) has its `phone`
channel set to `phone_detected and (near_left or near_right or in_front)`
(line 513). -/
def pushedTuple (phone_boxes : List PhoneBox) (pose : Option (List Keypoint)) :
    DetectionTuple :=
  let phone_detected := decide (phone_boxes.length > 0)
  let flags :=
    if phone_detected && pose.isSome then classifyBoxes phone_boxes (pose.getD [])
    else ⟨false, false, false⟩
  { phone := phone_detected && (flags.left || flags.right || flags.front)
    left_ear := flags.left
    right_ear := flags.right
    front_face := flags.front }

/-!  The `/detect` request boundary (lines 446-542).  The perception
collaborators (image decode, MediaPipe object and pose detection) are
external; each stage's outcome enters the model as an `Except` value.
`decode = .ok none` models `cv2.imdecode` returning `None`. -/

/-- Outcomes of the three external pipeline stages consumed by one call to
the `/detect` endpoint. -/
structure DetectInputs where
  decode : Except String (Option Unit)
  objects : Except String (List PhoneBox)
  pose : Except String (Option (List Keypoint))

/-- An exception propagating out of the `try` block: either a FastAPI
`HTTPException` (which subclasses `Exception`) or any other Python
exception, carrying its `str(e)` rendering. -/
inductive Raised where
  | httpExc (status : Nat) (detail : String)
  | pyExc (msg : String)
deriving DecidableEq, Repr

/-- Rendering `str(e)` of a propagating exception; Starlette's `HTTPException.__str__`
renders as `"<status>: <detail>"`. -/
def raisedMessage : Raised → String
  | .httpExc status detail => toString status ++ ": " ++ detail
  | .pyExc msg => msg

/-- The body of the `try` block at lines 457-539, threading the smoothing
window: decode (raising `HTTPException(400, "Invalid image format")` when
the image is undecodable, line 463), object detection, pose detection, the
per-frame classification, the push into the window (line 512) and the
smoothed read-back (line 520). -/
def detectTryBody (inp : DetectInputs) (s : DetectionSmoothing) :
    Except Raised (SmoothedResult × DetectionSmoothing) :=
  match inp.decode with
  | .error msg => .error (.pyExc msg)
  | .ok none => .error (.httpExc 400 "Invalid image format")
  | .ok (some _) =>
    match inp.objects with
    | .error msg => .error (.pyExc msg)
    | .ok phone_boxes =>
      match inp.pose with
      | .error msg => .error (.pyExc msg)
      | .ok pose =>
        let t := pushedTuple phone_boxes pose
        let s' := add_detection s t.phone t.left_ear t.right_ear t.front_face
        .ok (get_smoothed_result s', s')

/-- What one call to `/detect` sends back to the caller. -/
inductive HttpOutcome where
  | ok (result : SmoothedResult)
  | error (status : Nat) (detail : String)
deriving DecidableEq, Repr

/-- The `/detect` endpoint (lines 446-542).  Every exception leaving the
`try` block — including the `HTTPException(400)` raised for an undecodable
image, since FastAPI's `HTTPException` subclasses `Exception` — is caught
by `except Exception as e` (line 541) and re-raised as
`HTTPException(500, "Detection failed: " + str(e))` (line 542).  On that
path the smoothing window is returned unchanged: `add_detection` was never
reached. -/
def detectEndpoint (inp : DetectInputs) (s : DetectionSmoothing) :
    HttpOutcome × DetectionSmoothing :=
  match detectTryBody inp s with
  | .ok (smoothed, s') => (.ok smoothed, s')
  | .error e => (.error 500 ("Detection failed: " ++ raisedMessage e), s)

/-!  Spec-side formulations, for the refinement claims.  These are written
from the specification's words, to be compared with the source-derived
predicates above. -/

/-- Spec formulation of the non-close ear branch: distance (squared) strictly
below `EAR_THRESHOLD` squared, and the wrist raised: wrist visibility
strictly above 0.3 and wrist y strictly below shoulder y. -/
def earFarSpec (phone_box : PhoneBox) (keypoints : List Keypoint)
    (earIdx wristIdx shoulderIdx : Nat) : Bool :=
  decide (distanceSq (get_phone_center phone_box)
      ((keypoints.getD earIdx default).x, (keypoints.getD earIdx default).y) <
    EAR_THRESHOLD ^ 2) &&
  (decide ((keypoints.getD wristIdx default).visibility > 3/10) &&
   decide ((keypoints.getD wristIdx default).y < (keypoints.getD shoulderIdx default).y))

/-- Spec formulation of the front-of-face condition: phone center inside the
min/max bounding region of the facial keypoints with visibility > 0.2,
expanded by `FACE_MARGIN` on every side with inclusive bounds; squared
distance to the nose strictly below `NOSE_THRESHOLD` squared; and at least
one wrist with visibility strictly above 0.3. -/
def frontOfFaceSpec (phone_box : PhoneBox) (keypoints : List Keypoint) : Bool :=
  let pts := visibleFacePoints keypoints
  let xs := pts.map (·.x)
  let ys := pts.map (·.y)
  let c := get_phone_center phone_box
  let nose := keypoints.getD 0 default
  (decide (listMin xs - FACE_MARGIN ≤ c.1) &&
   decide (c.1 ≤ listMax xs + FACE_MARGIN) &&
   decide (listMin ys - FACE_MARGIN ≤ c.2) &&
   decide (c.2 ≤ listMax ys + FACE_MARGIN)) &&
  decide (distanceSq c (nose.x, nose.y) < NOSE_THRESHOLD ^ 2) &&
  (decide ((keypoints.getD 15 default).visibility > 3/10) ||
   decide ((keypoints.getD 16 default).visibility > 3/10))

/-!  Bounds-checked variants of the ear predicates: every positional keypoint
access goes through the partial lookup `xs[i]?`, so a `none` result models a
Python `IndexError`.  They are used to state that the length guards make the
accesses in the source safe. -/

/-- Bounds-checked `is_phone_near_left_ear`. -/
def leftEarCheckedAccess (phone_box : PhoneBox) (keypoints : List Keypoint) : Option Bool :=
  if keypoints = [] ∨ keypoints.length < 16 then some false
  else do
    let left_ear ← keypoints[7]?
    let left_wrist ← keypoints[15]?
    let left_shoulder ← keypoints[11]?
    if left_ear.visibility < 3/10 then some false
    else
      let dist_sq := distanceSq (get_phone_center phone_box) (left_ear.x, left_ear.y)
      if dist_sq < CLOSE_THRESHOLD ^ 2 then some true
      else
        some (decide (dist_sq < EAR_THRESHOLD ^ 2) &&
          (decide (left_wrist.visibility > 3/10) && decide (left_wrist.y < left_shoulder.y)))

/-- Bounds-checked `is_phone_near_right_ear`. -/
def rightEarCheckedAccess (phone_box : PhoneBox) (keypoints : List Keypoint) : Option Bool :=
  if keypoints = [] ∨ keypoints.length < 17 then some false
  else do
    let right_ear ← keypoints[8]?
    let right_wrist ← keypoints[16]?
    let right_shoulder ← keypoints[12]?
    if right_ear.visibility < 3/10 then some false
    else
      let dist_sq := distanceSq (get_phone_center phone_box) (right_ear.x, right_ear.y)
      if dist_sq < CLOSE_THRESHOLD ^ 2 then some true
      else
        some (decide (dist_sq < EAR_THRESHOLD ^ 2) &&
          (decide (right_wrist.visibility > 3/10) && decide (right_wrist.y < right_shoulder.y)))

/-!  Concrete inputs used by the witness theorems. -/

/-- A keypoint at pixel position `(x, y)` with the given visibility. -/
def kp (x y vis : ℚ) : Keypoint := ⟨x, y, 0, vis, ""⟩

/-- Phone box `{x_min:100, y_min:50, width:40, height:60}`, center (120, 80). -/
def pbClose : PhoneBox := ⟨100, 50, 40, 60, 9/10⟩

/-- Seventeen keypoints with both ears exactly at (120, 80) — the center of
`pbClose` — and everything else invisible at the origin. -/
def kpsClose : List Keypoint :=
  [kp 0 0 0, kp 0 0 0, kp 0 0 0, kp 0 0 0, kp 0 0 0, kp 0 0 0, kp 0 0 0,
   kp 120 80 (9/10), kp 120 80 (9/10), kp 0 0 0, kp 0 0 0, kp 0 0 0, kp 0 0 0,
   kp 0 0 0, kp 0 0 0, kp 0 0 0, kp 0 0 0]

/-- Phone box with center (120, 0): distance 120 from the origin. -/
def pbFar : PhoneBox := ⟨100, -20, 40, 40, 1⟩

/-- Seventeen keypoints with both ears at the origin (120 px from the center of
`pbFar`), both wrists visible and raised, and both shoulders below them. -/
def kpsFar : List Keypoint :=
  [kp 0 0 0, kp 0 0 0, kp 0 0 0, kp 0 0 0, kp 0 0 0, kp 0 0 0, kp 0 0 0,
   kp 0 0 (9/10), kp 0 0 (9/10), kp 0 0 0, kp 0 0 0, kp 0 10 (9/10), kp 0 10 (9/10),
   kp 0 0 0, kp 0 0 0, kp 50 (-50) (9/10), kp 50 (-50) (9/10)]

/-- Seventeen keypoints with a visible nose at (100, 100), a visible left wrist, and
all other facial points invisible. -/
def kpsFace : List Keypoint :=
  [kp 100 100 (9/10), kp 0 0 0, kp 0 0 0, kp 0 0 0, kp 0 0 0, kp 0 0 0, kp 0 0 0,
   kp 0 0 0, kp 0 0 0, kp 0 0 0, kp 0 0 0, kp 0 0 0, kp 0 0 0,
   kp 0 0 0, kp 0 0 0, kp 50 (-50) (9/10), kp 0 0 0]

/-- A `/detect` call whose image bytes fail to decode (`cv2.imdecode`
returned `None`), with both perception models succeeding trivially. -/
def undecodableCall : DetectInputs :=
  { decode := .ok none, objects := .ok [], pose := .ok none }

/-- A `/detect` call in which reading or decoding the upload raised. -/
def failedDecodeCall : DetectInputs :=
  { decode := .error "read raised", objects := .ok [], pose := .ok none }

/-- The smoothing window after the pushes of the C7 scenario: five frames
with `phone=true`, then one with `phone=false`. -/
def c7Window : DetectionSmoothing :=
  ([true, true, true, true, true, false]).foldl
    (fun s b => add_detection s b false false false) DetectionSmoothing.mkDefault

/-- A window-size-5 smoother holding only two tuples, both voting all-true. -/
def smallWindowState : DetectionSmoothing :=
  { window_size := 5,
    phone_detections := [⟨true, true, true, true⟩, ⟨true, true, true, true⟩],
    last_detection_time := 0, debounce_ms := 300 }

/-!  Theorems. -/

/-- C6: for every phone box and keypoint sequence of length strictly less
than 16 (the empty sequence included), both ear predicates return false, and
the bounds-checked variants — in which any out-of-bounds index access would
surface as `none` — return `some false`, so no out-of-bounds access occurs. -/
theorem near_ear_short_keypoints_false (phone_box : PhoneBox) (keypoints : List Keypoint)
    (h : keypoints.length < 16) :
    is_phone_near_left_ear phone_box keypoints = false ∧
    is_phone_near_right_ear phone_box keypoints = false ∧
    leftEarCheckedAccess phone_box keypoints = some false ∧
    rightEarCheckedAccess phone_box keypoints = some false := by
  have h17 : keypoints.length < 17 := Nat.lt_trans h (by omega)
  refine ⟨?_, ?_, ?_, ?_⟩ <;>
    simp [is_phone_near_left_ear, is_phone_near_right_ear,
      leftEarCheckedAccess, rightEarCheckedAccess, h, h17]

/-- Witness for C6 at the empty keypoint list. -/
theorem near_ear_short_keypoints_false_witness :
    is_phone_near_left_ear pbClose [] = false ∧
    is_phone_near_right_ear pbClose [] = false ∧
    leftEarCheckedAccess pbClose [] = some false ∧
    rightEarCheckedAccess pbClose [] = some false :=
  near_ear_short_keypoints_false pbClose [] (by decide)

/-- C4: once the length guard passes, if the ear's visibility is at least 0.3
and the squared phone-center-to-ear distance is below `CLOSE_THRESHOLD`
squared, each ear predicate returns true — the wrist keypoints are arbitrary,
so the result is independent of wrist visibility and position; distance 0
(phone centered at the ear) is a special case. -/
theorem near_ear_close_always_true (phone_box : PhoneBox) (keypoints : List Keypoint) :
    (16 ≤ keypoints.length →
      3/10 ≤ (keypoints.getD 7 default).visibility →
      distanceSq (get_phone_center phone_box)
        ((keypoints.getD 7 default).x, (keypoints.getD 7 default).y) < CLOSE_THRESHOLD ^ 2 →
      is_phone_near_left_ear phone_box keypoints = true) ∧
    (17 ≤ keypoints.length →
      3/10 ≤ (keypoints.getD 8 default).visibility →
      distanceSq (get_phone_center phone_box)
        ((keypoints.getD 8 default).x, (keypoints.getD 8 default).y) < CLOSE_THRESHOLD ^ 2 →
      is_phone_near_right_ear phone_box keypoints = true) := by
  constructor
  · intro hlen hvis hclose
    have hne : keypoints ≠ [] := by
      intro he; rw [he] at hlen; simp at hlen
    have hguard : ¬(keypoints = [] ∨ keypoints.length < 16) := by
      rintro (he | hlt)
      · exact hne he
      · exact absurd hlen (Nat.not_le.mpr hlt)
    simp only [is_phone_near_left_ear]
    rw [if_neg hguard, if_neg (not_lt.mpr hvis), if_pos hclose]
  · intro hlen hvis hclose
    have hne : keypoints ≠ [] := by
      intro he; rw [he] at hlen; simp at hlen
    have hguard : ¬(keypoints = [] ∨ keypoints.length < 17) := by
      rintro (he | hlt)
      · exact hne he
      · exact absurd hlen (Nat.not_le.mpr hlt)
    simp only [is_phone_near_right_ear]
    rw [if_neg hguard, if_neg (not_lt.mpr hvis), if_pos hclose]

/-- Witness for C4: both ears exactly at the phone center (distance 0), with
both wrists invisible at the origin. -/
theorem near_ear_close_always_true_witness :
    is_phone_near_left_ear pbClose kpsClose = true ∧
    is_phone_near_right_ear pbClose kpsClose = true :=
  ⟨(near_ear_close_always_true pbClose kpsClose).1 (by decide)
      (by rw [show (kpsClose.getD 7 default).visibility = 9/10 from rfl]; norm_num)
      (by rw [show kpsClose.getD 7 default = kp 120 80 (9/10) from rfl]
          norm_num [distanceSq, get_phone_center, pbClose, kp, CLOSE_THRESHOLD]),
   (near_ear_close_always_true pbClose kpsClose).2 (by decide)
      (by rw [show (kpsClose.getD 8 default).visibility = 9/10 from rfl]; norm_num)
      (by rw [show kpsClose.getD 8 default = kp 120 80 (9/10) from rfl]
          norm_num [distanceSq, get_phone_center, pbClose, kp, CLOSE_THRESHOLD])⟩

/-- C5: once the length guard passes, with ear visibility at least 0.3 and
squared distance at least `CLOSE_THRESHOLD` squared (so the close
short-circuit does not fire), each ear predicate equals the spec's condition:
squared distance strictly below `EAR_THRESHOLD` squared AND wrist raised
(wrist visibility strictly above 0.3 and wrist y strictly below shoulder y). -/
theorem near_ear_far_iff_spec (phone_box : PhoneBox) (keypoints : List Keypoint) :
    (16 ≤ keypoints.length →
      3/10 ≤ (keypoints.getD 7 default).visibility →
      CLOSE_THRESHOLD ^ 2 ≤ distanceSq (get_phone_center phone_box)
        ((keypoints.getD 7 default).x, (keypoints.getD 7 default).y) →
      is_phone_near_left_ear phone_box keypoints = earFarSpec phone_box keypoints 7 15 11) ∧
    (17 ≤ keypoints.length →
      3/10 ≤ (keypoints.getD 8 default).visibility →
      CLOSE_THRESHOLD ^ 2 ≤ distanceSq (get_phone_center phone_box)
        ((keypoints.getD 8 default).x, (keypoints.getD 8 default).y) →
      is_phone_near_right_ear phone_box keypoints = earFarSpec phone_box keypoints 8 16 12) := by
  constructor
  · intro hlen hvis hfar
    have hne : keypoints ≠ [] := by
      intro he; rw [he] at hlen; simp at hlen
    have hguard : ¬(keypoints = [] ∨ keypoints.length < 16) := by
      rintro (he | hlt)
      · exact hne he
      · exact absurd hlen (Nat.not_le.mpr hlt)
    simp only [is_phone_near_left_ear, earFarSpec]
    rw [if_neg hguard, if_neg (not_lt.mpr hvis), if_neg (not_lt.mpr hfar)]
  · intro hlen hvis hfar
    have hne : keypoints ≠ [] := by
      intro he; rw [he] at hlen; simp at hlen
    have hguard : ¬(keypoints = [] ∨ keypoints.length < 17) := by
      rintro (he | hlt)
      · exact hne he
      · exact absurd hlen (Nat.not_le.mpr hlt)
    simp only [is_phone_near_right_ear, earFarSpec]
    rw [if_neg hguard, if_neg (not_lt.mpr hvis), if_neg (not_lt.mpr hfar)]

/-- Witness for C5: ears 120 px from the phone center (past the close
threshold, inside the ear threshold) with visible raised wrists; both sides
evaluate to true, matching the spec condition. -/
theorem near_ear_far_iff_spec_witness :
    is_phone_near_left_ear pbFar kpsFar = true ∧
    is_phone_near_right_ear pbFar kpsFar = true :=
  ⟨((near_ear_far_iff_spec pbFar kpsFar).1 (by decide)
      (by rw [show (kpsFar.getD 7 default).visibility = 9/10 from rfl]; norm_num)
      (by rw [show kpsFar.getD 7 default = kp 0 0 (9/10) from rfl]
          norm_num [distanceSq, get_phone_center, pbFar, kp, CLOSE_THRESHOLD])).trans
      (by simp only [earFarSpec]
          rw [show kpsFar.getD 7 default = kp 0 0 (9/10) from rfl,
              show kpsFar.getD 15 default = kp 50 (-50) (9/10) from rfl,
              show kpsFar.getD 11 default = kp 0 10 (9/10) from rfl]
          norm_num [distanceSq, get_phone_center, pbFar, kp, EAR_THRESHOLD]),
   ((near_ear_far_iff_spec pbFar kpsFar).2 (by decide)
      (by rw [show (kpsFar.getD 8 default).visibility = 9/10 from rfl]; norm_num)
      (by rw [show kpsFar.getD 8 default = kp 0 0 (9/10) from rfl]
          norm_num [distanceSq, get_phone_center, pbFar, kp, CLOSE_THRESHOLD])).trans
      (by simp only [earFarSpec]
          rw [show kpsFar.getD 8 default = kp 0 0 (9/10) from rfl,
              show kpsFar.getD 16 default = kp 50 (-50) (9/10) from rfl,
              show kpsFar.getD 12 default = kp 0 10 (9/10) from rfl]
          norm_num [distanceSq, get_phone_center, pbFar, kp, EAR_THRESHOLD])⟩

/-- C3: once the length guard passes and the nose's visibility is at least
0.3, the front-of-face predicate equals the spec's condition — phone center
inside the 120 px-expanded, inclusively-bounded region of the facial
keypoints with visibility strictly above 0.2, squared nose distance strictly
below `NOSE_THRESHOLD` squared, and at least one wrist with visibility
strictly above 0.3 — whenever some facial keypoint clears the visibility
gate; and it returns false when none does. -/
theorem front_of_face_iff_spec (phone_box : PhoneBox) (keypoints : List Keypoint) :
    (17 ≤ keypoints.length →
      3/10 ≤ (keypoints.getD 0 default).visibility →
      visibleFacePoints keypoints ≠ [] →
      is_phone_in_front_of_face phone_box keypoints = frontOfFaceSpec phone_box keypoints) ∧
    (17 ≤ keypoints.length →
      3/10 ≤ (keypoints.getD 0 default).visibility →
      visibleFacePoints keypoints = [] →
      is_phone_in_front_of_face phone_box keypoints = false) := by
  have hguard : 17 ≤ keypoints.length → ¬(keypoints = [] ∨ keypoints.length < 17) := by
    intro hlen
    rintro (he | hlt)
    · rw [he] at hlen; simp at hlen
    · exact absurd hlen (Nat.not_le.mpr hlt)
  constructor
  · intro hlen hvis hface
    simp only [is_phone_in_front_of_face, frontOfFaceSpec]
    rw [if_neg (hguard hlen), if_neg (not_lt.mpr hvis), if_neg hface]
  · intro hlen hvis hface
    simp only [is_phone_in_front_of_face]
    rw [if_neg (hguard hlen), if_neg (not_lt.mpr hvis), if_pos hface]

/-- Witness for C3: visible nose at (100, 100), phone center (120, 80)
inside the expanded face region and 800 squared-px from the nose, left
wrist visible. -/
theorem front_of_face_iff_spec_witness :
    is_phone_in_front_of_face pbClose kpsFace = true := by
  have hv : visibleFacePoints kpsFace = [kp 100 100 (9/10)] := by
    simp only [visibleFacePoints]
    rw [show kpsFace.getD 0 default = kp 100 100 (9/10) from rfl,
        show kpsFace.getD 2 default = kp 0 0 0 from rfl,
        show kpsFace.getD 5 default = kp 0 0 0 from rfl,
        show kpsFace.getD 7 default = kp 0 0 0 from rfl,
        show kpsFace.getD 8 default = kp 0 0 0 from rfl]
    norm_num [kp, List.filter_cons, List.filter_nil]
  have h1 := (front_of_face_iff_spec pbClose kpsFace).1 (by decide)
    (by rw [show (kpsFace.getD 0 default).visibility = 9/10 from rfl]; norm_num)
    (by rw [hv]; simp)
  rw [h1]
  simp only [frontOfFaceSpec, hv]
  rw [show kpsFace.getD 0 default = kp 100 100 (9/10) from rfl,
      show kpsFace.getD 15 default = kp 50 (-50) (9/10) from rfl,
      show kpsFace.getD 16 default = kp 0 0 0 from rfl]
  norm_num [distanceSq, get_phone_center, pbClose, kp, listMin, listMax,
    FACE_MARGIN, NOSE_THRESHOLD]

/-- Each component of one loop iteration ORs the box's contribution into the
accumulated flags. -/
theorem classifyStep_components (keypoints : List Keypoint) (fl : FrameFlags)
    (pb : PhoneBox) :
    (classifyStep keypoints fl pb).left = (fl.left || (boxContribution pb keypoints).left) ∧
    (classifyStep keypoints fl pb).right = (fl.right || (boxContribution pb keypoints).right) ∧
    (classifyStep keypoints fl pb).front = (fl.front || (boxContribution pb keypoints).front) := by
  cases hL : is_phone_near_left_ear pb keypoints <;>
    cases hR : is_phone_near_right_ear pb keypoints <;>
      cases hF : is_phone_in_front_of_face pb keypoints <;>
        simp [classifyStep, boxContribution, hL, hR, hF]

/-- Folding the loop from any starting flags ORs in each box's contribution. -/
theorem classify_foldl_components (keypoints : List Keypoint) (phone_boxes : List PhoneBox)
    (init : FrameFlags) :
    ((phone_boxes.foldl (classifyStep keypoints) init).left =
      (init.left || phone_boxes.any fun pb => (boxContribution pb keypoints).left)) ∧
    ((phone_boxes.foldl (classifyStep keypoints) init).right =
      (init.right || phone_boxes.any fun pb => (boxContribution pb keypoints).right)) ∧
    ((phone_boxes.foldl (classifyStep keypoints) init).front =
      (init.front || phone_boxes.any fun pb => (boxContribution pb keypoints).front)) := by
  induction phone_boxes generalizing init with
  | nil => simp
  | cons pb rest ih =>
    obtain ⟨c1, c2, c3⟩ := classifyStep_components keypoints init pb
    obtain ⟨i1, i2, i3⟩ := ih (classifyStep keypoints init pb)
    refine ⟨?_, ?_, ?_⟩ <;>
      simp [List.foldl_cons, List.any_cons, i1, i2, i3, c1, c2, c3, Bool.or_assoc]

/-- C2: the loop over phone boxes OR-combines per-box contributions across
boxes (each channel is true iff some box contributes it), each box's
contribution follows the fixed left-ear / right-ear / front-of-face priority
with early exit (the lower-priority predicates are masked by the negations of
the higher-priority ones), and a single box sets at most one flag. -/
theorem classify_priority_or_combined (phone_boxes : List PhoneBox)
    (keypoints : List Keypoint) :
    ((classifyBoxes phone_boxes keypoints).left =
      (phone_boxes.any fun pb => (boxContribution pb keypoints).left)) ∧
    ((classifyBoxes phone_boxes keypoints).right =
      (phone_boxes.any fun pb => (boxContribution pb keypoints).right)) ∧
    ((classifyBoxes phone_boxes keypoints).front =
      (phone_boxes.any fun pb => (boxContribution pb keypoints).front)) ∧
    (∀ pb : PhoneBox,
      (boxContribution pb keypoints).left = is_phone_near_left_ear pb keypoints ∧
      (boxContribution pb keypoints).right =
        (!is_phone_near_left_ear pb keypoints && is_phone_near_right_ear pb keypoints) ∧
      (boxContribution pb keypoints).front =
        (!is_phone_near_left_ear pb keypoints && !is_phone_near_right_ear pb keypoints &&
          is_phone_in_front_of_face pb keypoints)) ∧
    (∀ pb : PhoneBox, flagCount (boxContribution pb keypoints) ≤ 1) := by
  obtain ⟨f1, f2, f3⟩ :=
    classify_foldl_components keypoints phone_boxes ⟨false, false, false⟩
  refine ⟨?_, ?_, ?_, ?_, ?_⟩
  · simpa [classifyBoxes] using f1
  · simpa [classifyBoxes] using f2
  · simpa [classifyBoxes] using f3
  · intro pb
    cases hL : is_phone_near_left_ear pb keypoints <;>
      cases hR : is_phone_near_right_ear pb keypoints <;>
        cases hF : is_phone_in_front_of_face pb keypoints <;>
          simp [boxContribution, hL, hR, hF]
  · intro pb
    cases hL : is_phone_near_left_ear pb keypoints <;>
      cases hR : is_phone_near_right_ear pb keypoints <;>
        cases hF : is_phone_in_front_of_face pb keypoints <;>
          simp [boxContribution, flagCount, hL, hR, hF]

/-- C1: the `phone` channel of the tuple pushed into the smoothing window is
the conjunction of raw phone detection (at least one box) with at least one
of the three per-frame proximity flags; in particular a frame whose three
flags are all false pushes `phone = false` even when a phone box is present;
and on the success path of the endpoint body, exactly this tuple is appended
to the window. -/
theorem pushed_phone_is_conjunction (phone_boxes : List PhoneBox)
    (pose : Option (List Keypoint)) :
    ((pushedTuple phone_boxes pose).phone =
      (decide (phone_boxes.length > 0) &&
        ((pushedTuple phone_boxes pose).left_ear ||
          (pushedTuple phone_boxes pose).right_ear ||
          (pushedTuple phone_boxes pose).front_face))) ∧
    ((pushedTuple phone_boxes pose).left_ear = false →
      (pushedTuple phone_boxes pose).right_ear = false →
      (pushedTuple phone_boxes pose).front_face = false →
      (pushedTuple phone_boxes pose).phone = false) ∧
    (∀ s : DetectionSmoothing,
      detectTryBody ⟨.ok (some ()), .ok phone_boxes, .ok pose⟩ s =
        .ok (get_smoothed_result (add_detection s (pushedTuple phone_boxes pose).phone
              (pushedTuple phone_boxes pose).left_ear
              (pushedTuple phone_boxes pose).right_ear
              (pushedTuple phone_boxes pose).front_face),
            add_detection s (pushedTuple phone_boxes pose).phone
              (pushedTuple phone_boxes pose).left_ear
              (pushedTuple phone_boxes pose).right_ear
              (pushedTuple phone_boxes pose).front_face)) := by
  refine ⟨rfl, ?_, fun s => rfl⟩
  intro hl hr hf
  calc (pushedTuple phone_boxes pose).phone
      = (decide (phone_boxes.length > 0) &&
          ((pushedTuple phone_boxes pose).left_ear ||
            (pushedTuple phone_boxes pose).right_ear ||
            (pushedTuple phone_boxes pose).front_face)) := rfl
    _ = false := by rw [hl, hr, hf]; simp

/-- Witness for C1: one phone box but no pose, so every proximity flag is
false and the pushed `phone` channel is false despite the visible phone. -/
theorem pushed_phone_is_conjunction_witness :
    (pushedTuple [pbClose] none).phone = false :=
  (pushed_phone_is_conjunction [pbClose] none).2.1 rfl rfl rfl

/-- C7: starting from the freshly constructed smoother, five pushes with
`phone = true` followed by one with `phone = false` leave a window of
exactly the most recent five tuples in FIFO order (four true, then the
false one), and the smoothed `phone_detected` is still true since 4 votes
exceed the strict-majority threshold `window_size / 2 = 2.5`. -/
theorem window_fifo_majority :
    c7Window.phone_detections.map (fun t => t.phone) =
      [true, true, true, true, false] ∧
    c7Window.phone_detections.length = 5 ∧
    (get_smoothed_result c7Window).phone_detected = true := by
  refine ⟨rfl, rfl, ?_⟩
  have hne : ¬(c7Window.phone_detections = []) := by decide
  simp only [get_smoothed_result, if_neg hne]
  rw [show (c7Window.phone_detections.filter (fun t => t.phone)).length = 4 from rfl,
      show c7Window.window_size = 5 from rfl]
  norm_num

/-- C10: with the capacity fixed at 5, any window holding at most two tuples
smooths to all-false on every channel, whatever the tuples vote — the
threshold `window_size / 2 = 2.5` is computed from the capacity, not from
the current occupancy, and 2 votes can never exceed it. -/
theorem small_window_all_false (s : DetectionSmoothing)
    (hw : s.window_size = 5) (hl : s.phone_detections.length ≤ 2) :
    get_smoothed_result s =
      { phone_detected := false, phone_near_left_ear := false,
        phone_near_right_ear := false, phone_in_front_of_face := false } := by
  have key : ∀ p : DetectionTuple → Bool,
      decide (((s.phone_detections.filter p).length : ℚ) > (s.window_size : ℚ) / 2) =
        false := by
    intro p
    have h1 : (s.phone_detections.filter p).length ≤ 2 :=
      le_trans (List.length_filter_le _ _) hl
    have h2 : ((s.phone_detections.filter p).length : ℚ) ≤ 2 := by exact_mod_cast h1
    rw [decide_eq_false_iff_not, hw]
    intro hgt
    push_cast at hgt
    linarith
  unfold get_smoothed_result
  split
  · rfl
  · simp only [key]

/-- Witness for C10: a window of two all-true tuples still reads all-false. -/
theorem small_window_all_false_witness :
    get_smoothed_result smallWindowState =
      { phone_detected := false, phone_near_left_ear := false,
        phone_near_right_ear := false, phone_in_front_of_face := false } :=
  small_window_all_false smallWindowState rfl (by decide)

/-- C8 (code slip): on an undecodable image the endpoint does NOT report the
intended client-input error.  The `HTTPException(400, "Invalid image
format")` raised at line 463 is itself an `Exception`, so the blanket
`except Exception` at line 541 catches it and re-raises
`HTTPException(500, "Detection failed: " + str(e))`; the caller receives a
generic 500 server error wrapping the 400, and the window is unchanged. -/
theorem undecodable_image_gets_500 :
    (detectEndpoint undecodableCall DetectionSmoothing.mkDefault).1 =
      .error 500 "Detection failed: 400: Invalid image format" ∧
    (detectEndpoint undecodableCall DetectionSmoothing.mkDefault).2 =
      DetectionSmoothing.mkDefault := by
  exact ⟨rfl, rfl⟩

/-- C9: if decode raises, the image fails to decode (which raises the 400
`HTTPException`), object detection raises, or pose detection raises — all of
which happen before the `smoother.add_detection` call — the endpoint answers
with an HTTP error and the smoothing window is exactly the one it started
with: no tuple was appended. -/
theorem detect_error_leaves_window_unchanged (inp : DetectInputs)
    (s : DetectionSmoothing)
    (h : (∃ msg, inp.decode = .error msg) ∨ inp.decode = .ok none ∨
         (∃ msg, inp.objects = .error msg) ∨ (∃ msg, inp.pose = .error msg)) :
    (detectEndpoint inp s).2 = s ∧
    ∃ status detail, (detectEndpoint inp s).1 = .error status detail := by
  obtain ⟨e, he⟩ : ∃ e, detectTryBody inp s = .error e := by
    unfold detectTryBody
    cases hd : inp.decode with
    | error msg => exact ⟨_, rfl⟩
    | ok img =>
      cases img with
      | none => exact ⟨_, rfl⟩
      | some u =>
        have h' : (∃ msg, inp.objects = .error msg) ∨ (∃ msg, inp.pose = .error msg) := by
          rcases h with ⟨msg, hm⟩ | hm | hobj | hpose
          · rw [hd] at hm; cases hm
          · rw [hd] at hm; simp at hm
          · exact Or.inl hobj
          · exact Or.inr hpose
        cases hobj : inp.objects with
        | error msg => exact ⟨_, rfl⟩
        | ok phone_boxes =>
          cases hpose : inp.pose with
          | error msg => exact ⟨_, rfl⟩
          | ok pose =>
            exfalso
            rcases h' with ⟨msg, hm⟩ | ⟨msg, hm⟩
            · rw [hobj] at hm; cases hm
            · rw [hpose] at hm; cases hm
  unfold detectEndpoint
  rw [he]
  exact ⟨rfl, 500, _, rfl⟩

/-- Witness for C9: a call whose upload read raised leaves the fresh window
untouched and produces an error response. -/
theorem detect_error_leaves_window_unchanged_witness :
    (detectEndpoint failedDecodeCall DetectionSmoothing.mkDefault).2 =
      DetectionSmoothing.mkDefault ∧
    ∃ status detail,
      (detectEndpoint failedDecodeCall DetectionSmoothing.mkDefault).1 =
        .error status detail :=
  detect_error_leaves_window_unchanged failedDecodeCall DetectionSmoothing.mkDefault
    (Or.inl ⟨"read raised", rfl⟩)

end FocusFlow
